import Mathlib

/-
Verification of the gamma-ramp color model of xsct (src/xsct.c).

The C source is shallowly embedded:
* C `double` arithmetic is modelled by real arithmetic (`ℝ`), with `log`/`exp`
  mapped to `Real.log`/`Real.exp`.
* C `long`/`int` values are modelled by `ℤ`; the `(unsigned)` cast used in the
  controller-selection test is modelled by reduction modulo 2^32.
* The cast `(unsigned short)(x)` of a nonnegative double is truncation, i.e.
  `Int.floor`.
* Display-backend state (XRandR) is modelled by explicit controller records:
  a controller is its gamma-ramp size together with the three channel tables.
  Functions that read screen state through the backend are parametrised by
  that data; the set/get calls themselves are the external interface.
-/

namespace Xsct

/-! Constants, from xsct.c lines 25-50 and 401-403. -/

def MINTEMP : ℤ := 700

def TEMP_NORM : ℤ := 6500

def MIN_DELTA : ℤ := -1000000

def TOGGLE_DELTA : ℤ := 200

noncomputable def BRIGHTNESS_DIV : ℝ := 65470.988

noncomputable def GAMMA_MULT : ℝ := 65535.0

noncomputable def GAMMA_K0GR : ℝ := -1.47751309139817

noncomputable def GAMMA_K1GR : ℝ := 0.28590164772055

noncomputable def GAMMA_K0BR : ℝ := -4.38321650114872

noncomputable def GAMMA_K1BR : ℝ := 0.6212158769447

noncomputable def GAMMA_K0RB : ℝ := 1.75390204039018

noncomputable def GAMMA_K1RB : ℝ := -0.1150805671482

noncomputable def GAMMA_K0GB : ℝ := 1.49221604915144

noncomputable def GAMMA_K1GB : ℝ := -0.07513509588921

/-- struct sgamma (xsct.c lines 64-68): the three channel multipliers. -/
structure sgamma where
  red : ℝ
  green : ℝ
  blue : ℝ

/-- struct tempstate (xsct.c lines 58-61): temperature (C long) and
brightness (C double). -/
structure tempstate where
  temp : ℤ
  brightness : ℝ

/-- trimdouble (xsct.c lines 197-200): returns buff[(x>a)+(x>b)] where
buff = {a, x, b}, i.e. index 0 when x <= a, 1 when exactly one comparison
holds, 2 when both hold. -/
noncomputable def trimdouble (x a b : ℝ) : ℝ :=
  if a < x then (if b < x then b else x) else (if b < x then x else a)

/-- The forward curve model: the computation of `sg` in setst
(xsct.c lines 276-293), obtaining the channel multipliers from the
target temperature.  The spec names this temperatureToGamma. -/
noncomputable def temperatureToGamma (temp : ℤ) : sgamma :=
  if temp < TEMP_NORM then
    { red := 1
      green :=
        if MINTEMP < temp then
          trimdouble (GAMMA_K0GR + GAMMA_K1GR * Real.log ((temp : ℝ) - (MINTEMP : ℝ))) 0 1
        else 0
      blue :=
        if MINTEMP < temp then
          trimdouble (GAMMA_K0BR + GAMMA_K1BR * Real.log ((temp : ℝ) - (MINTEMP : ℝ))) 0 1
        else 0 }
  else
    { red := trimdouble
        (GAMMA_K0RB + GAMMA_K1RB * Real.log ((temp : ℝ) - ((TEMP_NORM - MINTEMP : ℤ) : ℝ))) 0 1
      green := trimdouble
        (GAMMA_K0GB + GAMMA_K1GB * Real.log ((temp : ℝ) - ((TEMP_NORM - MINTEMP : ℤ) : ℝ))) 0 1
      blue := 1 }

/-- One entry of the encoded ramp (setst, xsct.c lines 304-309):
g = GAMMA_MULT * b * i / size, and the stored channel value is
(unsigned short)(g * mult + 0.5). -/
noncomputable def setstRampValue (b mult : ℝ) (size i : ℕ) : ℤ :=
  ⌊GAMMA_MULT * b * (i : ℝ) / (size : ℝ) * mult + 0.5⌋

/-- One display controller (XRRCrtcGamma): its gamma-ramp size and the three
channel tables, each table value read back as a real number. -/
structure xcrtc where
  size : ℕ
  red : ℕ → ℝ
  green : ℕ → ℝ
  blue : ℕ → ℝ

instance : Inhabited xcrtc :=
  ⟨⟨0, fun _ => 0, fun _ => 0, fun _ => 0⟩⟩

/-- The full ramp written to one controller by setst
(xsct.c lines 300-311), at that controller's own ramp size. -/
noncomputable def setstRamp (b : ℝ) (sg : sgamma) (size : ℕ) : xcrtc :=
  { size := size
    red := fun i => (setstRampValue b sg.red size i : ℝ)
    green := fun i => (setstRampValue b sg.green size i : ℝ)
    blue := fun i => (setstRampValue b sg.blue size i : ℝ) }

/-- The C cast (unsigned)x for a 32-bit int x. -/
def uint32 (x : ℤ) : ℤ := x % 4294967296

/-- Controller selection, the code shared verbatim by getscreengamma
(xsct.c lines 207-212) and setst (xsct.c lines 296-300):
if ((unsigned)icrtc < (unsigned)ncrtc) the loop visits exactly icrtc,
otherwise icrtc is reset to 0 and the loop visits all ncrtc controllers. -/
def selectcrtcs (icrtc : ℤ) (ncrtc : ℕ) : List ℕ :=
  if uint32 icrtc < uint32 (ncrtc : ℤ) then [icrtc.toNat] else List.range ncrtc

/-- getscreengamma (xsct.c lines 203-226): sums, over the selected
controllers, the last element of each channel table, and returns the
number of controllers visited. -/
noncomputable def getscreengamma (ncrtc : ℕ) (crtcs : ℕ → xcrtc) (icrtc : ℤ) : sgamma × ℕ :=
  let cs := selectcrtcs icrtc ncrtc
  ({ red := (cs.map (fun c => (crtcs c).red ((crtcs c).size - 1))).sum
     green := (cs.map (fun c => (crtcs c).green ((crtcs c).size - 1))).sum
     blue := (cs.map (fun c => (crtcs c).blue ((crtcs c).size - 1))).sum }, cs.length)

/-- The body of getst after the getscreengamma call (xsct.c lines 235-268):
estimates brightness and temperature from the summed channel peaks `sg0`
over `ncrtc` controllers.  The estimated temperature (the spec names this
inverse gammaToTemperature) is rounded by (long)(t + 0.5). -/
noncomputable def getstCore (sg0 : sgamma) (ncrtc : ℕ) : tempstate :=
  let b0 := max sg0.blue (max sg0.red sg0.green)
  if 0 < b0 ∧ 0 < ncrtc then
    let red := sg0.red / b0
    let green := sg0.green / b0
    let blue := sg0.blue / b0
    let b1 := trimdouble (b0 / (ncrtc : ℝ) / BRIGHTNESS_DIV) 0 1
    let gdelta := blue - red
    let t : ℝ :=
      if gdelta < 0 then
        if 0 < blue then
          Real.exp ((green + 1.0 + gdelta - (GAMMA_K0GR + GAMMA_K0BR)) /
              (GAMMA_K1GR + GAMMA_K1BR)) + (MINTEMP : ℝ)
        else if 0 < green then
          Real.exp ((green - GAMMA_K0GR) / GAMMA_K1GR) + (MINTEMP : ℝ)
        else (MINTEMP : ℝ)
      else
        Real.exp ((green + 1.0 - gdelta - (GAMMA_K0GB + GAMMA_K0RB)) /
            (GAMMA_K1GB + GAMMA_K1RB)) + ((TEMP_NORM - MINTEMP : ℤ) : ℝ)
    { temp := ⌊t + 0.5⌋, brightness := b1 }
  else
    { temp := ⌊(0 : ℝ) + 0.5⌋, brightness := trimdouble b0 0 1 }

/-- getst (xsct.c lines 230-269). -/
noncomputable def getst (ncrtc : ℕ) (crtcs : ℕ → xcrtc) (icrtc : ℤ) : tempstate :=
  getstCore (getscreengamma ncrtc crtcs icrtc).1 (getscreengamma ncrtc crtcs icrtc).2

/-- setst (xsct.c lines 273-314) as the list of per-controller writes it
performs: brightness is clamped, the curve model is evaluated once, and the
ramp is rebuilt at each selected controller's own size. -/
noncomputable def setst (ncrtc : ℕ) (sizes : ℕ → ℕ) (icrtc : ℤ) (ts : tempstate) :
    List (ℕ × xcrtc) :=
  let b := trimdouble ts.brightness 0 1
  let sg := temperatureToGamma ts.temp
  (selectcrtcs icrtc ncrtc).map (fun c => (c, setstRamp b sg (sizes c)))

/-- Round trip for one screen with one controller of the given ramp size:
setst at temperature t and brightness 1 (with the unset controller index -1),
then getst on the written ramp; the estimated temperature. -/
noncomputable def roundtrip (t : ℤ) (size : ℕ) : ℤ :=
  (getst 1 (fun _ => (setst 1 (fun _ => size) (-1) { temp := t, brightness := 1 }).headI.2)
    (-1)).temp

/-! Policy layer. -/

/-- boundtemp (xsct.c lines 318-327). -/
def boundtemp (temp dfl : ℤ) : ℤ :=
  if temp ≤ 0 then (if dfl < 0 then TEMP_NORM else dfl)
  else if temp < MINTEMP then (if dfl < 0 then MINTEMP else dfl)
  else temp

/-- boundbrightness (xsct.c lines 331-340). -/
noncomputable def boundbrightness (brightness : ℝ) : ℝ :=
  if brightness < 0 then 0 else if 1 < brightness then 1 else brightness

/-- boundts (xsct.c lines 344-347).  The C function calls
boundtemp(ts->temp, -1, twhat) and boundbrightness(ts->brightness) but
discards both return values, so the state it was handed is left unchanged;
only warnings are logged. -/
def boundts (ts : tempstate) : tempstate := ts

/-- The inclusive C loop `for (i = first; i <= last; i++)` as a list of
indices. -/
def irange (first last : ℤ) : List ℤ :=
  (List.range (last + 1 - first).toNat).map (fun k : ℕ => first + (k : ℤ))

/-- toggledaynight (xsct.c lines 409-418) as the list of setst calls it
makes, parametrised by the tempstate that getst returns for each screen
(screens are disjoint, so each getst sees the initial display state). -/
def toggledaynight (read : ℤ → tempstate) (tempDay tempNight : ℤ) (nscreen : ℕ) :
    List (ℤ × tempstate) :=
  (List.range nscreen).map (fun i : ℕ =>
    if tempDay - TOGGLE_DELTA < (read (i : ℤ)).temp then
      ((i : ℤ), { temp := tempNight, brightness := (read (i : ℤ)).brightness })
    else
      ((i : ℤ), { temp := tempDay, brightness := (read (i : ℤ)).brightness }))

/-- regularsct (xsct.c lines 430-437) as the list of setst calls it makes. -/
def regularsct (tempDay : ℤ) (ts : tempstate) (first last : ℤ) : List (ℤ × tempstate) :=
  let ts1 := if ts.temp = 0 then { temp := tempDay, brightness := ts.brightness } else boundts ts
  (irange first last).map (fun i => (i, ts1))

/-- deltasct (xsct.c lines 440-452): the error flag set by logerror, and the
list of setst calls made, parametrised by the per-screen getst result. -/
noncomputable def deltasct (read : ℤ → tempstate) (ts : tempstate) (first last : ℤ) :
    Bool × List (ℤ × tempstate) :=
  if ts.temp = MIN_DELTA ∨ ts.brightness = (MIN_DELTA : ℝ) then (true, [])
  else
    (false, (irange first last).map (fun i =>
      boundts { temp := (read i).temp + ts.temp,
                brightness := (read i).brightness + ts.brightness } |> fun dts => (i, dts)))

/-- The dispatch in main after argument collection succeeds
(xsct.c lines 465-484): the setst calls performed, in order, and the error
flag contributed by this part of the run.  read1 is what getst returns per
screen before any write; read2 is what it returns per screen when the
delta path reads (after a possible toggle). -/
noncomputable def mainrun (hasT hasD : Bool) (screenArg : ℤ) (nscreen : ℕ)
    (ts0 : tempstate) (tempDay tempNight : ℤ) (read1 read2 : ℤ → tempstate) :
    List (ℤ × tempstate) × Bool :=
  let togglewrites := if hasT then toggledaynight read1 tempDay tempNight nscreen else []
  let ts1 := if ts0.brightness = (MIN_DELTA : ℝ) ∧ hasD = false then
      { temp := ts0.temp, brightness := 1 } else ts0
  let first := if 0 ≤ screenArg then screenArg else 0
  let last := if 0 ≤ screenArg then screenArg else (nscreen : ℤ) - 1
  if ts1.temp = MIN_DELTA ∧ hasD = false then (togglewrites, false)
  else if hasD = false then (togglewrites ++ regularsct tempDay ts1 first last, false)
  else (togglewrites ++ (deltasct read2 ts1 first last).2, (deltasct read2 ts1 first last).1)

/-- The process exit status (xsct.c line 486): EXIT_FAILURE when the fail
flag was set, else EXIT_SUCCESS. -/
def exitcode (fail : Bool) : ℕ := if fail then 1 else 0

/-! Basic facts about the embedded primitives. -/

theorem trimdouble_eq_self {x a b : ℝ} (h1 : a < x) (h2 : x ≤ b) :
    trimdouble x a b = x := by
  unfold trimdouble
  rw [if_pos h1, if_neg (not_lt.mpr h2)]

theorem trimdouble_eq_min {x a b : ℝ} (h1 : a < x) : trimdouble x a b = min x b := by
  unfold trimdouble
  rw [if_pos h1]
  rcases lt_or_le b x with h | h
  · rw [if_pos h, min_eq_right h.le]
  · rw [if_neg (not_lt.mpr h), min_eq_left h]

theorem trimdouble_eq_left {x a b : ℝ} (h1 : x ≤ a) (h2 : x ≤ b) :
    trimdouble x a b = a := by
  unfold trimdouble
  rw [if_neg (not_lt.mpr h1), if_neg (not_lt.mpr h2)]

theorem irange_same (a : ℤ) : irange a a = [a] := by
  unfold irange
  have h : (a + 1 - a).toNat = 1 := by omega
  rw [h]
  simp [List.range_succ]

theorem selectcrtcs_one {icrtc : ℤ} {ncrtc : ℕ} (h0 : 0 ≤ icrtc)
    (h1 : icrtc < (ncrtc : ℤ)) (hn : ncrtc ≤ 2147483648) :
    selectcrtcs icrtc ncrtc = [icrtc.toNat] := by
  unfold selectcrtcs uint32
  rw [if_pos (by omega)]

theorem selectcrtcs_unset (ncrtc : ℕ) : selectcrtcs (-1) ncrtc = List.range ncrtc := by
  unfold selectcrtcs uint32
  rw [if_neg (by omega)]

theorem selectcrtcs_oob {icrtc : ℤ} {ncrtc : ℕ} (h : (ncrtc : ℤ) ≤ icrtc)
    (h2 : icrtc < 4294967296) : selectcrtcs icrtc ncrtc = List.range ncrtc := by
  unfold selectcrtcs uint32
  rw [if_neg (by omega)]

theorem setstRampValue_at0 (mult : ℝ) (size : ℕ) :
    setstRampValue 1 mult size 0 = 0 := by
  unfold setstRampValue
  norm_num

theorem setstRampValue_256_last : setstRampValue 1 1 256 255 = 65279 := by
  unfold setstRampValue GAMMA_MULT
  rw [Int.floor_eq_iff]
  constructor <;> norm_num

/-! Rational enclosures of the logarithms the curve model evaluates,
via the Taylor remainder bound for log(1-x) and the d9 bounds on log 2. -/

theorem log_bounds_aux (k n : ℕ) (x y Slo Shi E L U : ℝ) (hk : 1 ≤ k)
    (hx0 : 0 ≤ x) (hx1 : x < 1)
    (hy : y = 2 ^ k / (1 - x))
    (hSlo : Slo ≤ ∑ i ∈ Finset.range n, x ^ (i + 1) / (i + 1))
    (hShi : (∑ i ∈ Finset.range n, x ^ (i + 1) / (i + 1)) ≤ Shi)
    (hE : x ^ (n + 1) / (1 - x) ≤ E)
    (hL : L ≤ (k : ℝ) * 0.6931471803 + Slo - E)
    (hU : (k : ℝ) * 0.6931471808 + Shi + E ≤ U) :
    L < Real.log y ∧ Real.log y < U := by
  have hx1' : (0 : ℝ) < 1 - x := by linarith
  have habs : |x| = x := abs_of_nonneg hx0
  have h := Real.abs_log_sub_add_sum_range_le (x := x) (by rw [habs]; exact hx1) n
  rw [habs, abs_le] at h
  have hylog : Real.log y = (k : ℝ) * Real.log 2 - Real.log (1 - x) := by
    rw [hy, Real.log_div (by positivity) (ne_of_gt hx1'), Real.log_pow]
  have hk0 : (0 : ℝ) < (k : ℝ) := by
    have h1 : (1 : ℝ) ≤ (k : ℝ) := by exact_mod_cast hk
    linarith
  have h2lo : (k : ℝ) * 0.6931471803 < (k : ℝ) * Real.log 2 :=
    mul_lt_mul_of_pos_left Real.log_two_gt_d9 hk0
  have h2hi : (k : ℝ) * Real.log 2 < (k : ℝ) * 0.6931471808 :=
    mul_lt_mul_of_pos_left Real.log_two_lt_d9 hk0
  constructor
  · rw [hylog]
    linarith [h.1, h.2]
  · rw [hylog]
    linarith [h.1, h.2]

theorem log700_bounds :
    (6.551080124538 : ℝ) < Real.log 700 ∧ Real.log 700 < 6.551080514141 := by
  refine log_bounds_aux 9 11 (47 / 175) 700 0.312755694389027 0.312755694389028
      1.92551006e-7 6.551080124538 6.551080514141 (by norm_num) (by norm_num)
      (by norm_num) (by norm_num) ?_ ?_ (by norm_num) (by norm_num) (by norm_num)
  · simp only [Finset.sum_range_succ, Finset.sum_range_zero]
    norm_num
  · simp only [Finset.sum_range_succ, Finset.sum_range_zero]
    norm_num

theorem log300_bounds :
    (5.703782190872 : ℝ) < Real.log 300 ∧ Real.log 300 < 5.70378269671 := by
  refine log_bounds_aux 8 7 (11 / 75) 300 0.158604999391131 0.158604999391132
      0.000000250918489 5.703782190872 5.70378269671 (by norm_num) (by norm_num)
      (by norm_num) (by norm_num) ?_ ?_ (by norm_num) (by norm_num) (by norm_num)
  · simp only [Finset.sum_range_succ, Finset.sum_range_zero]
    norm_num
  · simp only [Finset.sum_range_succ, Finset.sum_range_zero]
    norm_num

theorem log2000_bounds :
    (7.600902424005 : ℝ) < Real.log 2000 ∧ Real.log 2000 < 7.60090249243 := by
  refine log_bounds_aux 10 24 (61 / 125) 2000 0.669430652717658 0.669430652717659
      0.000000031712143 7.600902424005 7.60090249243 (by norm_num) (by norm_num)
      (by norm_num) (by norm_num) ?_ ?_ (by norm_num) (by norm_num) (by norm_num)
  · simp only [Finset.sum_range_succ, Finset.sum_range_zero]
    norm_num
  · simp only [Finset.sum_range_succ, Finset.sum_range_zero]
    norm_num

theorem log3800_bounds :
    (8.242755976528 : ℝ) < Real.log 3800 ∧ Real.log 3800 < 8.242756681055 := by
  refine log_bounds_aux 11 19 (219 / 475) 3800 0.61813734274137 0.618137342741371
      0.000000349513334 8.242755976528 8.242756681055 (by norm_num) (by norm_num)
      (by norm_num) (by norm_num) ?_ ?_ (by norm_num) (by norm_num) (by norm_num)
  · simp only [Finset.sum_range_succ, Finset.sum_range_zero]
    norm_num
  · simp only [Finset.sum_range_succ, Finset.sum_range_zero]
    norm_num

theorem log3200_bounds :
    (8.070905718232 : ℝ) < Real.log 3200 ∧ Real.log 3200 < 8.070906414589 := by
  refine log_bounds_aux 11 14 (9 / 25) 3200 0.446287080360407 0.446287080360408
      0.000000345428 8.070905718232 8.070906414589 (by norm_num) (by norm_num)
      (by norm_num) (by norm_num) ?_ ?_ (by norm_num) (by norm_num) (by norm_num)
  · simp only [Finset.sum_range_succ, Finset.sum_range_zero]
    norm_num
  · simp only [Finset.sum_range_succ, Finset.sum_range_zero]
    norm_num

theorem log9200_bounds :
    (9.126958516837 : ℝ) < Real.log 9200 ∧ Real.log 9200 < 9.126958949071 := by
  refine log_bounds_aux 13 6 (63 / 575) 9200 0.116045385803764 0.116045385803765
      0.000000212866254 9.126958516837 9.126958949071 (by norm_num) (by norm_num)
      (by norm_num) (by norm_num) ?_ ?_ (by norm_num) (by norm_num) (by norm_num)
  · simp only [Finset.sum_range_succ, Finset.sum_range_zero]
    norm_num
  · simp only [Finset.sum_range_succ, Finset.sum_range_zero]
    norm_num

theorem log260_bounds :
    (5.560676702755 : ℝ) < Real.log 260 ∧ Real.log 260 < 5.560684103205 := by
  refine log_bounds_aux 8 2 (1 / 65) 260 0.015502958579881 0.015502958579882
      0.000003698224853 5.560676702755 5.560684103205 (by norm_num) (by norm_num)
      (by norm_num) (by norm_num) ?_ ?_ (by norm_num) (by norm_num) (by norm_num)
  · simp only [Finset.sum_range_succ, Finset.sum_range_zero]
    norm_num
  · simp only [Finset.sum_range_succ, Finset.sum_range_zero]
    norm_num

theorem log340_bounds :
    (5.82892495516 : ℝ) < Real.log 340 ∧ Real.log 340 < 5.828961829056 := by
  refine log_bounds_aux 8 7 (21 / 85) 340 0.283765947707664 0.283765947707665
      0.000018434947447 5.82892495516 5.828961829056 (by norm_num) (by norm_num)
      (by norm_num) (by norm_num) ?_ ?_ (by norm_num) (by norm_num) (by norm_num)
  · simp only [Finset.sum_range_succ, Finset.sum_range_zero]
    norm_num
  · simp only [Finset.sum_range_succ, Finset.sum_range_zero]
    norm_num

theorem log1960_bounds :
    (7.580668569784 : ℝ) < Real.log 1960 ∧ Real.log 1960 < 7.580727226777 := by
  refine log_bounds_aux 10 14 (117 / 245) 1960 0.649226092780403 0.649226092780404
      0.0000293259963 7.580668569784 7.580727226777 (by norm_num) (by norm_num)
      (by norm_num) (by norm_num) ?_ ?_ (by norm_num) (by norm_num) (by norm_num)
  · simp only [Finset.sum_range_succ, Finset.sum_range_zero]
    norm_num
  · simp only [Finset.sum_range_succ, Finset.sum_range_zero]
    norm_num

theorem log2040_bounds :
    (7.620644159223 : ℝ) < Real.log 2040 ∧ Real.log 2040 < 7.620758798189 := by
  refine log_bounds_aux 10 14 (127 / 255) 2040 0.689229673206466 0.689229673206467
      0.000057316982511 7.620644159223 7.620758798189 (by norm_num) (by norm_num)
      (by norm_num) (by norm_num) ?_ ?_ (by norm_num) (by norm_num) (by norm_num)
  · simp only [Finset.sum_range_succ, Finset.sum_range_zero]
    norm_num
  · simp only [Finset.sum_range_succ, Finset.sum_range_zero]
    norm_num

theorem log3760_bounds :
    (8.232141965271 : ℝ) < Real.log 3760 ∧ Real.log 3760 < 8.232202408858 := by
  refine log_bounds_aux 11 13 (107 / 235) 3760 0.607553201014144 0.607553201014145
      0.000030219043123 8.232141965271 8.232202408858 (by norm_num) (by norm_num)
      (by norm_num) (by norm_num) ?_ ?_ (by norm_num) (by norm_num) (by norm_num)
  · simp only [Finset.sum_range_succ, Finset.sum_range_zero]
    norm_num
  · simp only [Finset.sum_range_succ, Finset.sum_range_zero]
    norm_num

theorem log3840_bounds :
    (8.253181134628 : ℝ) < Real.log 3840 ∧ Real.log 3840 < 8.253268261801 := by
  refine log_bounds_aux 11 13 (7 / 15) 3840 0.628605712164186 0.628605712164187
      0.000043560835954 8.253181134628 8.253268261801 (by norm_num) (by norm_num)
      (by norm_num) (by norm_num) ?_ ?_ (by norm_num) (by norm_num) (by norm_num)
  · simp only [Finset.sum_range_succ, Finset.sum_range_zero]
    norm_num
  · simp only [Finset.sum_range_succ, Finset.sum_range_zero]
    norm_num

theorem log660_bounds :
    (6.492198007193 : ℝ) < Real.log 660 ∧ Real.log 660 < 6.492271518648 := by
  refine log_bounds_aux 9 6 (37 / 165) 660 0.253910137970403 0.253910137970404
      0.000036753477211 6.492198007193 6.492271518648 (by norm_num) (by norm_num)
      (by norm_num) (by norm_num) ?_ ?_ (by norm_num) (by norm_num) (by norm_num)
  · simp only [Finset.sum_range_succ, Finset.sum_range_zero]
    norm_num
  · simp only [Finset.sum_range_succ, Finset.sum_range_zero]
    norm_num

theorem log740_bounds :
    (6.606610166268 : ℝ) < Real.log 740 ∧ Real.log 740 < 6.606682501008 := by
  refine log_bounds_aux 9 8 (57 / 185) 740 0.368321708687733 0.368321708687734
      0.000036165119476 6.606610166268 6.606682501008 (by norm_num) (by norm_num)
      (by norm_num) (by norm_num) ?_ ?_ (by norm_num) (by norm_num) (by norm_num)
  · simp only [Finset.sum_range_succ, Finset.sum_range_zero]
    norm_num
  · simp only [Finset.sum_range_succ, Finset.sum_range_zero]
    norm_num

theorem log3160_bounds :
    (8.058278084867 : ℝ) < Real.log 3160 ∧ Real.log 3160 < 8.058367949904 := by
  refine log_bounds_aux 11 9 (139 / 395) 3160 0.433704031335451 0.433704031335452
      0.000044929768054 8.058278084867 8.058367949904 (by norm_num) (by norm_num)
      (by norm_num) (by norm_num) ?_ ?_ (by norm_num) (by norm_num) (by norm_num)
  · simp only [Finset.sum_range_succ, Finset.sum_range_zero]
    norm_num
  · simp only [Finset.sum_range_succ, Finset.sum_range_zero]
    norm_num

theorem log3240_bounds :
    (8.083299869742 : ℝ) < Real.log 3240 ∧ Real.log 3240 < 8.083352754915 := by
  refine log_bounds_aux 11 10 (149 / 405) 3240 0.458707326278788 0.458707326278789
      0.000026439835884 8.083299869742 8.083352754915 (by norm_num) (by norm_num)
      (by norm_num) (by norm_num) ?_ ?_ (by norm_num) (by norm_num) (by norm_num)
  · simp only [Finset.sum_range_succ, Finset.sum_range_zero]
    norm_num
  · simp only [Finset.sum_range_succ, Finset.sum_range_zero]
    norm_num

theorem log9160_bounds :
    (9.122583826225 : ℝ) < Real.log 9160 ∧ Real.log 9160 < 9.122613306446 := by
  refine log_bounds_aux 13 4 (121 / 1145) 9160 0.111685219185368 0.111685219185369
      0.000014736859678 9.122583826225 9.122613306446 (by norm_num) (by norm_num)
      (by norm_num) (by norm_num) ?_ ?_ (by norm_num) (by norm_num) (by norm_num)
  · simp only [Finset.sum_range_succ, Finset.sum_range_zero]
    norm_num
  · simp only [Finset.sum_range_succ, Finset.sum_range_zero]
    norm_num

theorem log9240_bounds :
    (9.131271843931 : ℝ) < Real.log 9240 ∧ Real.log 9240 < 9.131314191186 := by
  refine log_bounds_aux 13 4 (131 / 1155) 9240 0.120379670408515 0.120379670408516
      0.000021170376648 9.131271843931 9.131314191186 (by norm_num) (by norm_num)
      (by norm_num) (by norm_num) ?_ ?_ (by norm_num) (by norm_num) (by norm_num)
  · simp only [Finset.sum_range_succ, Finset.sum_range_zero]
    norm_num
  · simp only [Finset.sum_range_succ, Finset.sum_range_zero]
    norm_num

/-! Claims. -/

/-- C2: for every temperature strictly between MINTEMP and TEMP_NORM the
forward curve model yields red = 1.0, and for every temperature at or above
TEMP_NORM it yields blue = 1.0. -/
theorem c2_warm_red_cool_blue (t : ℤ) :
    (MINTEMP < t → t < TEMP_NORM → (temperatureToGamma t).red = 1) ∧
    (TEMP_NORM ≤ t → (temperatureToGamma t).blue = 1) := by
  unfold temperatureToGamma
  constructor
  · intro _ h2
    rw [if_pos h2]
  · intro h
    rw [if_neg (not_lt.mpr h)]

theorem c2_warm_red_cool_blue_witness :
    (temperatureToGamma 3000).red = 1 ∧ (temperatureToGamma 7000).blue = 1 :=
  ⟨(c2_warm_red_cool_blue 3000).1 (by decide) (by decide),
   (c2_warm_red_cool_blue 7000).2 (by decide)⟩

/-- C3 as stated is false: with size 256, brightness 1 and unit channel
multipliers, the last ramp entry of the red channel is
65279 = round(65535 * 255 / 256), which is not 65535 nor within one unit
of rounding of it. -/
theorem c3_counterexample :
    (setstRamp 1 ⟨1, 1, 1⟩ 256).red 255 = 65279 ∧
    ¬ |(setstRamp 1 ⟨1, 1, 1⟩ 256).red 255 - 65535| ≤ 1 := by
  have h : (setstRamp 1 ⟨1, 1, 1⟩ 256).red 255 = ((setstRampValue 1 1 256 255 : ℤ) : ℝ) :=
    rfl
  rw [h, setstRampValue_256_last]
  norm_num [abs_le]

/-- C3 amended: encode at size 256, brightness 1 and gamma multipliers
{1,1,1} gives first element 0 on every channel and last element
round(65535 * 255 / 256) = 65279 (not 65535) on every channel. -/
theorem c3_amended_endpoints :
    ((setstRamp 1 ⟨1, 1, 1⟩ 256).red 0 = 0 ∧
     (setstRamp 1 ⟨1, 1, 1⟩ 256).green 0 = 0 ∧
     (setstRamp 1 ⟨1, 1, 1⟩ 256).blue 0 = 0) ∧
    ((setstRamp 1 ⟨1, 1, 1⟩ 256).red 255 = 65279 ∧
     (setstRamp 1 ⟨1, 1, 1⟩ 256).green 255 = 65279 ∧
     (setstRamp 1 ⟨1, 1, 1⟩ 256).blue 255 = 65279) := by
  have h0 : ((setstRampValue 1 1 256 0 : ℤ) : ℝ) = 0 := by
    rw [setstRampValue_at0]
    norm_num
  have h255 : ((setstRampValue 1 1 256 255 : ℤ) : ℝ) = 65279 := by
    rw [setstRampValue_256_last]
    norm_num
  exact ⟨⟨h0, h0, h0⟩, h255, h255, h255⟩

/-- C10: for brightness and channel multiplier in [0,1] and any ramp size at
least 1, the encoded channel values are monotonically non-decreasing in the
index, so the last element is the channel peak that the decode step samples. -/
theorem c10_ramp_monotone (b mult : ℝ) (size i j : ℕ)
    (hb0 : 0 ≤ b) (hb1 : b ≤ 1) (hm0 : 0 ≤ mult) (hm1 : mult ≤ 1)
    (hsize : 1 ≤ size) (hij : i ≤ j) (hj : j < size) :
    setstRampValue b mult size i ≤ setstRampValue b mult size j ∧
    setstRampValue b mult size i ≤ setstRampValue b mult size (size - 1) := by
  have key : ∀ m n : ℕ, m ≤ n → setstRampValue b mult size m ≤ setstRampValue b mult size n := by
    intro m n hmn
    unfold setstRampValue
    apply Int.floor_le_floor
    have hc : (m : ℝ) ≤ (n : ℝ) := by exact_mod_cast hmn
    have hGb : (0 : ℝ) ≤ GAMMA_MULT * b := by
      unfold GAMMA_MULT
      nlinarith
    have hs : (0 : ℝ) ≤ ((size : ℝ))⁻¹ := by positivity
    have h1 : GAMMA_MULT * b * (m : ℝ) ≤ GAMMA_MULT * b * (n : ℝ) :=
      mul_le_mul_of_nonneg_left hc hGb
    have h2 : GAMMA_MULT * b * (m : ℝ) / (size : ℝ) ≤ GAMMA_MULT * b * (n : ℝ) / (size : ℝ) := by
      rw [div_eq_mul_inv, div_eq_mul_inv]
      exact mul_le_mul_of_nonneg_right h1 hs
    have h3 := mul_le_mul_of_nonneg_right h2 hm0
    linarith
  exact ⟨key i j hij, key i (size - 1) (by omega)⟩

theorem c10_ramp_monotone_witness :
    setstRampValue 1 1 2 0 ≤ setstRampValue 1 1 2 1 ∧
    setstRampValue 1 1 2 0 ≤ setstRampValue 1 1 2 (2 - 1) :=
  c10_ramp_monotone 1 1 2 0 1 zero_le_one le_rfl zero_le_one le_rfl
    (by decide) (by decide) (by decide)

/-- C7: controller selection, shared by the read path (getscreengamma) and
the write path (setst).  An explicit in-range index selects exactly that
controller; an unset index (-1) or an index at or beyond the controller
count selects all controllers starting from 0. -/
theorem c7_crtc_selection (ncrtc : ℕ) (crtcs : ℕ → xcrtc) (sizes : ℕ → ℕ)
    (ts : tempstate) (icrtc : ℤ) (hn : ncrtc ≤ 2147483648) :
    (0 ≤ icrtc → icrtc < (ncrtc : ℤ) →
      (getscreengamma ncrtc crtcs icrtc).2 = 1 ∧
      (getscreengamma ncrtc crtcs icrtc).1.red =
        (crtcs icrtc.toNat).red ((crtcs icrtc.toNat).size - 1) ∧
      (setst ncrtc sizes icrtc ts).map Prod.fst = [icrtc.toNat]) ∧
    ((icrtc = -1 ∨ ((ncrtc : ℤ) ≤ icrtc ∧ icrtc < 4294967296)) →
      (getscreengamma ncrtc crtcs icrtc).2 = ncrtc ∧
      (setst ncrtc sizes icrtc ts).map Prod.fst = List.range ncrtc) := by
  constructor
  · intro h0 h1
    unfold getscreengamma setst
    rw [selectcrtcs_one h0 h1 hn]
    simp
  · rintro (rfl | ⟨hlo, hhi⟩)
    · unfold getscreengamma setst
      rw [selectcrtcs_unset]
      simp [Function.comp_def]
    · unfold getscreengamma setst
      rw [selectcrtcs_oob hlo hhi]
      simp [Function.comp_def]

theorem c7_crtc_selection_witness :
    ((getscreengamma 2 (fun _ => ⟨4, fun _ => 5, fun _ => 5, fun _ => 5⟩) 1).2 = 1 ∧
     (getscreengamma 2 (fun _ => ⟨4, fun _ => 5, fun _ => 5, fun _ => 5⟩) 1).1.red =
       ((fun _ : ℕ => (⟨4, fun _ => 5, fun _ => 5, fun _ => 5⟩ : xcrtc)) (1 : ℤ).toNat).red
         (((fun _ : ℕ => (⟨4, fun _ => 5, fun _ => 5, fun _ => 5⟩ : xcrtc)) (1 : ℤ).toNat).size - 1) ∧
     (setst 2 (fun _ => 4) 1 ⟨6500, 1⟩).map Prod.fst = [(1 : ℤ).toNat]) :=
  (c7_crtc_selection 2 (fun _ => ⟨4, fun _ => 5, fun _ => 5, fun _ => 5⟩) (fun _ => 4)
    ⟨6500, 1⟩ 1 (by decide)).1 (by decide) (by decide)

/-- C5: toggle mode, per screen: when the estimated temperature exceeds
the day default minus TOGGLE_DELTA (200K) the night default is written,
otherwise the day default is written; brightness is passed through. -/
theorem c5_toggle_choice (read : ℤ → tempstate) (tempDay tempNight : ℤ)
    (nscreen : ℕ) (i : ℕ) (hi : i < nscreen) :
    (toggledaynight read tempDay tempNight nscreen)[i]? =
      some (if tempDay - TOGGLE_DELTA < (read (i : ℤ)).temp then
          ((i : ℤ), { temp := tempNight, brightness := (read (i : ℤ)).brightness })
        else
          ((i : ℤ), { temp := tempDay, brightness := (read (i : ℤ)).brightness })) := by
  unfold toggledaynight
  rw [List.getElem?_map, List.getElem?_range hi]
  rfl

theorem c5_toggle_choice_witness :
    (toggledaynight (fun _ => ⟨6700, 1⟩) 6500 4500 1)[0]? =
      some ((0 : ℤ), ⟨4500, 1⟩) := by
  have h := c5_toggle_choice (fun _ => (⟨6700, 1⟩ : tempstate)) 6500 4500 1 0 (by decide)
  simpa [TOGGLE_DELTA] using h

/-- C6: with toggle requested and a single screen selected, the toggle loop
still covers every screen of the display (its iteration does not depend on
the screen argument), and every toggle write precedes every write of the
subsequent absolute or delta path, which itself only touches the selected
screen. -/
theorem c6_toggle_first_all_screens (hasD : Bool) (s : ℤ) (nscreen : ℕ)
    (ts0 : tempstate) (tempDay tempNight : ℤ) (read1 read2 : ℤ → tempstate)
    (hs0 : 0 ≤ s) (hs : s < (nscreen : ℤ)) :
    ∃ rest,
      (mainrun true hasD s nscreen ts0 tempDay tempNight read1 read2).1 =
        toggledaynight read1 tempDay tempNight nscreen ++ rest ∧
      (∀ i : ℕ, i < nscreen →
        ∃ w, ((i : ℤ), w) ∈ toggledaynight read1 tempDay tempNight nscreen) ∧
      (∀ p ∈ rest, p.1 = s) := by
  have hmem : ∀ i : ℕ, i < nscreen →
      ∃ w, ((i : ℤ), w) ∈ toggledaynight read1 tempDay tempNight nscreen := by
    intro i hi
    have h0 := List.mem_map_of_mem
      (fun i : ℕ =>
        if tempDay - TOGGLE_DELTA < (read1 (i : ℤ)).temp then
          ((i : ℤ), ({ temp := tempNight, brightness := (read1 (i : ℤ)).brightness } : tempstate))
        else
          ((i : ℤ), ({ temp := tempDay, brightness := (read1 (i : ℤ)).brightness } : tempstate)))
      (List.mem_range.mpr hi)
    dsimp only at h0
    unfold toggledaynight
    by_cases hc : tempDay - TOGGLE_DELTA < (read1 (i : ℤ)).temp
    · rw [if_pos hc] at h0
      exact ⟨_, h0⟩
    · rw [if_neg hc] at h0
      exact ⟨_, h0⟩
  simp only [mainrun, if_pos hs0, if_pos (Eq.refl true)]
  by_cases hest : (if ts0.brightness = ((MIN_DELTA : ℤ) : ℝ) ∧ hasD = false then
      ({ temp := ts0.temp, brightness := 1 } : tempstate) else ts0).temp = MIN_DELTA ∧
      hasD = false
  · simp only [if_pos hest]
    exact ⟨[], (List.append_nil _).symm, hmem, by simp⟩
  · simp only [if_neg hest]
    by_cases habs : hasD = false
    · simp only [if_pos habs]
      refine ⟨_, rfl, hmem, ?_⟩
      intro p hp
      unfold regularsct at hp
      rw [irange_same] at hp
      simp only [List.map_cons, List.map_nil, List.mem_singleton] at hp
      subst hp
      rfl
    · simp only [if_neg habs]
      refine ⟨_, rfl, hmem, ?_⟩
      intro p hp
      unfold deltasct at hp
      by_cases hsen : (if ts0.brightness = ((MIN_DELTA : ℤ) : ℝ) ∧ hasD = false then
          ({ temp := ts0.temp, brightness := 1 } : tempstate) else ts0).temp = MIN_DELTA ∨
          (if ts0.brightness = ((MIN_DELTA : ℤ) : ℝ) ∧ hasD = false then
          ({ temp := ts0.temp, brightness := 1 } : tempstate) else ts0).brightness =
            ((MIN_DELTA : ℤ) : ℝ)
      · simp only [if_pos hsen] at hp
        simp at hp
      · simp only [if_neg hsen] at hp
        rw [irange_same] at hp
        simp only [List.map_cons, List.map_nil, List.mem_singleton] at hp
        subst hp
        rfl

theorem c6_toggle_first_all_screens_witness :
    ∃ rest,
      (mainrun true false 0 1 ⟨2000, 1⟩ 6500 4500 (fun _ => ⟨6700, 1⟩)
          (fun _ => ⟨6700, 1⟩)).1 =
        toggledaynight (fun _ => ⟨6700, 1⟩) 6500 4500 1 ++ rest ∧
      (∀ i : ℕ, i < 1 →
        ∃ w, ((i : ℤ), w) ∈ toggledaynight (fun _ => ⟨6700, 1⟩) 6500 4500 1) ∧
      (∀ p ∈ rest, p.1 = (0 : ℤ)) :=
  c6_toggle_first_all_screens false 0 1 ⟨2000, 1⟩ 6500 4500 (fun _ => ⟨6700, 1⟩)
    (fun _ => ⟨6700, 1⟩) (by decide) (by decide)

/-- C8: delta mode with exactly one of the two deltas supplied (the other
still the MIN_DELTA sentinel) makes deltasct log a usage error and perform
no write; the run performs no ramp write at all and the error flag makes
the exit status nonzero. -/
theorem c8_partial_delta_is_error (read1 read2 : ℤ → tempstate) (ts : tempstate)
    (screenArg : ℤ) (nscreen : ℕ) (tempDay tempNight : ℤ)
    (h : (ts.temp = MIN_DELTA ∧ ts.brightness ≠ ((MIN_DELTA : ℤ) : ℝ)) ∨
         (ts.temp ≠ MIN_DELTA ∧ ts.brightness = ((MIN_DELTA : ℤ) : ℝ))) :
    mainrun false true screenArg nscreen ts tempDay tempNight read1 read2 = ([], true) ∧
    exitcode (mainrun false true screenArg nscreen ts tempDay tempNight read1 read2).2 ≠ 0 := by
  have hcond : ts.temp = MIN_DELTA ∨ ts.brightness = ((MIN_DELTA : ℤ) : ℝ) := by
    rcases h with ⟨h1, _⟩ | ⟨_, h2⟩
    · exact Or.inl h1
    · exact Or.inr h2
  have hmain : mainrun false true screenArg nscreen ts tempDay tempNight read1 read2 =
      ([], true) := by
    unfold mainrun deltasct
    simp [hcond]
  exact ⟨hmain, by rw [hmain]; simp [exitcode]⟩

theorem c8_partial_delta_is_error_witness :
    mainrun false true 0 1 ⟨100, ((MIN_DELTA : ℤ) : ℝ)⟩ 6500 4500
        (fun _ => ⟨6500, 1⟩) (fun _ => ⟨6500, 1⟩) = ([], true) ∧
    exitcode (mainrun false true 0 1 ⟨100, ((MIN_DELTA : ℤ) : ℝ)⟩ 6500 4500
        (fun _ => ⟨6500, 1⟩) (fun _ => ⟨6500, 1⟩)).2 ≠ 0 :=
  c8_partial_delta_is_error (fun _ => ⟨6500, 1⟩) (fun _ => ⟨6500, 1⟩)
    ⟨100, ((MIN_DELTA : ℤ) : ℝ)⟩ 0 1 6500 4500 (Or.inr ⟨by decide, rfl⟩)

/-- C4 fails on the code: boundts discards the corrected values returned by
boundtemp and boundbrightness, so in delta mode the state passed to setst is
the raw sum.  With current state 6500K/1.0 and deltas -6600K/0.0, the write
carries temperature -100, whereas the bound-checked sum required by the
claim (and by the comment on boundts) is boundtemp(-100, -1) = 6500. -/
theorem c4_delta_write_not_bounded :
    (deltasct (fun _ => ⟨6500, 1⟩) ⟨-6600, 0⟩ 0 0).2 = [((0 : ℤ), ⟨-100, 1⟩)] ∧
    boundtemp ((6500 : ℤ) + -6600) (-1) = 6500 ∧ ((-100 : ℤ) ≠ 6500) := by
  refine ⟨?_, by decide, by decide⟩
  unfold deltasct
  rw [if_neg ?hne]
  case hne =>
    rintro (h1 | h2)
    · exact absurd h1 (by decide)
    · exact absurd h2 (by norm_num [MIN_DELTA])
  rw [irange_same]
  unfold boundts
  norm_num

/-- C9: the forward curve model at exactly TEMP_NORM yields red and green
within 1e-6 of 1.0 and blue exactly 1.0, with the fixed empirical
coefficients. -/
theorem c9_neutral_at_temp_norm :
    |(temperatureToGamma TEMP_NORM).red - 1| ≤ 1e-6 ∧
    |(temperatureToGamma TEMP_NORM).green - 1| ≤ 1e-6 ∧
    (temperatureToGamma TEMP_NORM).blue = 1 := by
  have hlog := log700_bounds
  have harg : ((TEMP_NORM : ℝ) - ((TEMP_NORM - MINTEMP : ℤ) : ℝ)) = 700 := by
    norm_num [TEMP_NORM, MINTEMP]
  have hred : (temperatureToGamma TEMP_NORM).red =
      trimdouble (GAMMA_K0RB + GAMMA_K1RB * Real.log 700) 0 1 := by
    unfold temperatureToGamma
    rw [if_neg (by decide)]
    dsimp only
    rw [harg]
  have hgreen : (temperatureToGamma TEMP_NORM).green =
      trimdouble (GAMMA_K0GB + GAMMA_K1GB * Real.log 700) 0 1 := by
    unfold temperatureToGamma
    rw [if_neg (by decide)]
    dsimp only
    rw [harg]
  have hblue : (temperatureToGamma TEMP_NORM).blue = 1 := by
    unfold temperatureToGamma
    rw [if_neg (by decide)]
  refine ⟨?_, ?_, hblue⟩
  · rw [hred]
    have h0 : (0 : ℝ) < GAMMA_K0RB + GAMMA_K1RB * Real.log 700 := by
      unfold GAMMA_K0RB GAMMA_K1RB
      linarith [hlog.1, hlog.2]
    rw [trimdouble_eq_min h0]
    have h1 : min (GAMMA_K0RB + GAMMA_K1RB * Real.log 700) 1 ≤ 1 := min_le_right _ _
    have h2 : 1 - 1e-6 ≤ min (GAMMA_K0RB + GAMMA_K1RB * Real.log 700) 1 := by
      refine le_min ?_ (by norm_num)
      unfold GAMMA_K0RB GAMMA_K1RB
      linarith [hlog.1, hlog.2]
    rw [abs_le]
    constructor <;> linarith
  · rw [hgreen]
    have h0 : (0 : ℝ) < GAMMA_K0GB + GAMMA_K1GB * Real.log 700 := by
      unfold GAMMA_K0GB GAMMA_K1GB
      linarith [hlog.1, hlog.2]
    rw [trimdouble_eq_min h0]
    have h1 : min (GAMMA_K0GB + GAMMA_K1GB * Real.log 700) 1 ≤ 1 := min_le_right _ _
    have h2 : 1 - 1e-6 ≤ min (GAMMA_K0GB + GAMMA_K1GB * Real.log 700) 1 := by
      refine le_min ?_ (by norm_num)
      unfold GAMMA_K0GB GAMMA_K1GB
      linarith [hlog.1, hlog.2]
    rw [abs_le]
    constructor <;> linarith

/-! Infrastructure for the round-trip claim. -/

theorem roundtrip_core (t : ℤ) (size : ℕ) :
    roundtrip t size = (getstCore
      ⟨((setstRampValue (trimdouble 1 0 1) (temperatureToGamma t).red size (size - 1) : ℤ) : ℝ),
       ((setstRampValue (trimdouble 1 0 1) (temperatureToGamma t).green size (size - 1) : ℤ) : ℝ),
       ((setstRampValue (trimdouble 1 0 1) (temperatureToGamma t).blue size (size - 1) : ℤ) : ℝ)⟩
      1).temp := by
  unfold roundtrip getst setst
  rw [selectcrtcs_unset]
  have e1 : List.range 1 = [0] := rfl
  rw [e1]
  dsimp only [List.map, List.headI]
  unfold getscreengamma
  rw [selectcrtcs_unset, e1]
  dsimp only [List.map, List.length]
  simp only [List.sum_cons, List.sum_nil, add_zero]
  rfl

theorem trim_one : trimdouble (1 : ℝ) 0 1 = 1 :=
  trimdouble_eq_self zero_lt_one le_rfl

/-- The full-brightness unit-multiplier peak at size 1024. -/
theorem peak_unit_1024 : setstRampValue 1 1 1024 1023 = 65471 := by
  unfold setstRampValue GAMMA_MULT
  rw [Int.floor_eq_iff]
  constructor <;> norm_num

/-- The zero-multiplier peak. -/
theorem peak_zero_1024 : setstRampValue 1 0 1024 1023 = 0 := by
  unfold setstRampValue GAMMA_MULT
  rw [Int.floor_eq_iff]
  constructor <;> norm_num

theorem roundtrip_floor_bound (x : ℝ) (target : ℤ)
    (h1 : (target : ℝ) - 50 ≤ x + 0.5) (h2 : x + 0.5 < (target : ℝ) + 51) :
    |⌊x + 0.5⌋ - target| ≤ 50 := by
  have hl : target - 50 ≤ ⌊x + 0.5⌋ := Int.le_floor.mpr (by push_cast; linarith)
  have hu : ⌊x + 0.5⌋ < target + 51 := Int.floor_lt.mpr (by push_cast; linarith)
  rw [abs_le]
  omega

theorem rt1000 : |roundtrip 1000 1024 - 1000| ≤ 50 := by
  have hlog := log300_bounds
  have harg : (((1000 : ℤ) : ℝ) - (MINTEMP : ℝ)) = 300 := by
    norm_num [MINTEMP]
  have hred : (temperatureToGamma 1000).red = 1 := by
    unfold temperatureToGamma
    rw [if_pos (by decide)]
  have hgreen : (temperatureToGamma 1000).green =
      GAMMA_K0GR + GAMMA_K1GR * Real.log 300 := by
    unfold temperatureToGamma
    rw [if_pos (by decide)]
    dsimp only
    rw [if_pos (by decide), harg]
    refine trimdouble_eq_self ?_ ?_
    · unfold GAMMA_K0GR GAMMA_K1GR
      linarith [hlog.1, hlog.2]
    · unfold GAMMA_K0GR GAMMA_K1GR
      linarith [hlog.1, hlog.2]
  have hblue : (temperatureToGamma 1000).blue = 0 := by
    unfold temperatureToGamma
    rw [if_pos (by decide)]
    dsimp only
    rw [if_pos (by decide), harg]
    refine trimdouble_eq_left ?_ ?_
    · unfold GAMMA_K0BR GAMMA_K1BR
      linarith [hlog.1, hlog.2]
    · unfold GAMMA_K0BR GAMMA_K1BR
      linarith [hlog.1, hlog.2]
  have hpr : setstRampValue 1 (temperatureToGamma 1000).red 1024 1023 = 65471 := by
    rw [hred]
    exact peak_unit_1024
  have hpg : setstRampValue 1 (temperatureToGamma 1000).green 1024 1023 = 10031 := by
    rw [hgreen]
    unfold setstRampValue GAMMA_MULT GAMMA_K0GR GAMMA_K1GR
    rw [Int.floor_eq_iff]
    push_cast
    constructor
    · nlinarith [hlog.1, hlog.2]
    · nlinarith [hlog.1, hlog.2]
  have hpb : setstRampValue 1 (temperatureToGamma 1000).blue 1024 1023 = 0 := by
    rw [hblue]
    exact peak_zero_1024
  rw [roundtrip_core, trim_one]
  have e1023 : (1024 : ℕ) - 1 = 1023 := rfl
  rw [e1023, hpr, hpg, hpb]
  push_cast
  unfold getstCore
  dsimp only
  rw [max_eq_left (by norm_num : (10031 : ℝ) ≤ 65471),
    max_eq_right (by norm_num : (0 : ℝ) ≤ 65471)]
  rw [if_pos (⟨by norm_num, by decide⟩ : (0 : ℝ) < 65471 ∧ 0 < 1)]
  rw [if_pos (by norm_num : (0 : ℝ) / 65471 - 65471 / 65471 < 0)]
  rw [if_neg (by norm_num : ¬ (0 : ℝ) < 0 / 65471)]
  rw [if_pos (by norm_num : (0 : ℝ) < 10031 / 65471)]
  dsimp only
  have hq1 : Real.log 260 < ((10031 : ℝ) / 65471 - GAMMA_K0GR) / GAMMA_K1GR := by
    refine lt_of_lt_of_le log260_bounds.2 ?_
    unfold GAMMA_K0GR GAMMA_K1GR
    norm_num
  have hq2 : ((10031 : ℝ) / 65471 - GAMMA_K0GR) / GAMMA_K1GR < Real.log 340 := by
    refine lt_of_le_of_lt ?_ log340_bounds.1
    unfold GAMMA_K0GR GAMMA_K1GR
    norm_num
  have he1 : (260 : ℝ) < Real.exp (((10031 : ℝ) / 65471 - GAMMA_K0GR) / GAMMA_K1GR) := by
    have h := Real.exp_lt_exp.mpr hq1
    rwa [Real.exp_log (by norm_num : (0 : ℝ) < 260)] at h
  have he2 : Real.exp (((10031 : ℝ) / 65471 - GAMMA_K0GR) / GAMMA_K1GR) < 340 := by
    have h := Real.exp_lt_exp.mpr hq2
    rwa [Real.exp_log (by norm_num : (0 : ℝ) < 340)] at h
  refine roundtrip_floor_bound _ 1000 ?_ ?_
  · unfold MINTEMP
    push_cast
    linarith
  · unfold MINTEMP
    push_cast
    linarith

theorem rt2700 : |roundtrip 2700 1024 - 2700| ≤ 50 := by
  have hlog := log2000_bounds
  have harg : (((2700 : ℤ) : ℝ) - (MINTEMP : ℝ)) = 2000 := by
    norm_num [MINTEMP]
  have hred : (temperatureToGamma 2700).red = 1 := by
    unfold temperatureToGamma
    rw [if_pos (by decide)]
  have hgreen : (temperatureToGamma 2700).green =
      GAMMA_K0GR + GAMMA_K1GR * Real.log 2000 := by
    unfold temperatureToGamma
    rw [if_pos (by decide)]
    dsimp only
    rw [if_pos (by decide), harg]
    refine trimdouble_eq_self ?_ ?_
    · unfold GAMMA_K0GR GAMMA_K1GR
      linarith [hlog.1, hlog.2]
    · unfold GAMMA_K0GR GAMMA_K1GR
      linarith [hlog.1, hlog.2]
  have hblue : (temperatureToGamma 2700).blue =
      GAMMA_K0BR + GAMMA_K1BR * Real.log 2000 := by
    unfold temperatureToGamma
    rw [if_pos (by decide)]
    dsimp only
    rw [if_pos (by decide), harg]
    refine trimdouble_eq_self ?_ ?_
    · unfold GAMMA_K0BR GAMMA_K1BR
      linarith [hlog.1, hlog.2]
    · unfold GAMMA_K0BR GAMMA_K1BR
      linarith [hlog.1, hlog.2]
  have hpr : setstRampValue 1 (temperatureToGamma 2700).red 1024 1023 = 65471 := by
    rw [hred]
    exact peak_unit_1024
  have hpg : setstRampValue 1 (temperatureToGamma 2700).green 1024 1023 = 45541 := by
    rw [hgreen]
    unfold setstRampValue GAMMA_MULT GAMMA_K0GR GAMMA_K1GR
    rw [Int.floor_eq_iff]
    push_cast
    constructor
    · nlinarith [hlog.1, hlog.2]
    · nlinarith [hlog.1, hlog.2]
  have hpb : setstRampValue 1 (temperatureToGamma 2700).blue 1024 1023 = 22167 := by
    rw [hblue]
    unfold setstRampValue GAMMA_MULT GAMMA_K0BR GAMMA_K1BR
    rw [Int.floor_eq_iff]
    push_cast
    constructor
    · nlinarith [hlog.1, hlog.2]
    · nlinarith [hlog.1, hlog.2]
  rw [roundtrip_core, trim_one]
  have e1023 : (1024 : ℕ) - 1 = 1023 := rfl
  rw [e1023, hpr, hpg, hpb]
  push_cast
  unfold getstCore
  dsimp only
  rw [max_eq_left (by norm_num : (45541 : ℝ) ≤ 65471),
    max_eq_right (by norm_num : (22167 : ℝ) ≤ 65471)]
  rw [if_pos (⟨by norm_num, by decide⟩ : (0 : ℝ) < 65471 ∧ 0 < 1)]
  rw [if_pos (by norm_num : (22167 : ℝ) / 65471 - 65471 / 65471 < 0)]
  rw [if_pos (by norm_num : (0 : ℝ) < 22167 / 65471)]
  dsimp only
  set q : ℝ := ((45541 : ℝ) / 65471 + 1.0 + ((22167 : ℝ) / 65471 - (65471 : ℝ) / 65471) -
      (GAMMA_K0GR + GAMMA_K0BR)) / (GAMMA_K1GR + GAMMA_K1BR) with hqdef
  have hq1 : Real.log 1960 < q := by
    refine lt_of_lt_of_le log1960_bounds.2 ?_
    rw [hqdef]
    unfold GAMMA_K0GR GAMMA_K0BR GAMMA_K1GR GAMMA_K1BR
    norm_num
  have hq2 : q < Real.log 2040 := by
    refine lt_of_le_of_lt ?_ log2040_bounds.1
    rw [hqdef]
    unfold GAMMA_K0GR GAMMA_K0BR GAMMA_K1GR GAMMA_K1BR
    norm_num
  have he1 : (1960 : ℝ) < Real.exp q := by
    have h := Real.exp_lt_exp.mpr hq1
    rwa [Real.exp_log (by norm_num : (0 : ℝ) < 1960)] at h
  have he2 : Real.exp q < 2040 := by
    have h := Real.exp_lt_exp.mpr hq2
    rwa [Real.exp_log (by norm_num : (0 : ℝ) < 2040)] at h
  refine roundtrip_floor_bound _ 2700 ?_ ?_
  · unfold MINTEMP
    push_cast
    linarith
  · unfold MINTEMP
    push_cast
    linarith

theorem rt4500 : |roundtrip 4500 1024 - 4500| ≤ 50 := by
  have hlog := log3800_bounds
  have harg : (((4500 : ℤ) : ℝ) - (MINTEMP : ℝ)) = 3800 := by
    norm_num [MINTEMP]
  have hred : (temperatureToGamma 4500).red = 1 := by
    unfold temperatureToGamma
    rw [if_pos (by decide)]
  have hgreen : (temperatureToGamma 4500).green =
      GAMMA_K0GR + GAMMA_K1GR * Real.log 3800 := by
    unfold temperatureToGamma
    rw [if_pos (by decide)]
    dsimp only
    rw [if_pos (by decide), harg]
    refine trimdouble_eq_self ?_ ?_
    · unfold GAMMA_K0GR GAMMA_K1GR
      linarith [hlog.1, hlog.2]
    · unfold GAMMA_K0GR GAMMA_K1GR
      linarith [hlog.1, hlog.2]
  have hblue : (temperatureToGamma 4500).blue =
      GAMMA_K0BR + GAMMA_K1BR * Real.log 3800 := by
    unfold temperatureToGamma
    rw [if_pos (by decide)]
    dsimp only
    rw [if_pos (by decide), harg]
    refine trimdouble_eq_self ?_ ?_
    · unfold GAMMA_K0BR GAMMA_K1BR
      linarith [hlog.1, hlog.2]
    · unfold GAMMA_K0BR GAMMA_K1BR
      linarith [hlog.1, hlog.2]
  have hpr : setstRampValue 1 (temperatureToGamma 4500).red 1024 1023 = 65471 := by
    rw [hred]
    exact peak_unit_1024
  have hpg : setstRampValue 1 (temperatureToGamma 4500).green 1024 1023 = 57556 := by
    rw [hgreen]
    unfold setstRampValue GAMMA_MULT GAMMA_K0GR GAMMA_K1GR
    rw [Int.floor_eq_iff]
    push_cast
    constructor
    · nlinarith [hlog.1, hlog.2]
    · nlinarith [hlog.1, hlog.2]
  have hpb : setstRampValue 1 (temperatureToGamma 4500).blue 1024 1023 = 48273 := by
    rw [hblue]
    unfold setstRampValue GAMMA_MULT GAMMA_K0BR GAMMA_K1BR
    rw [Int.floor_eq_iff]
    push_cast
    constructor
    · nlinarith [hlog.1, hlog.2]
    · nlinarith [hlog.1, hlog.2]
  rw [roundtrip_core, trim_one]
  have e1023 : (1024 : ℕ) - 1 = 1023 := rfl
  rw [e1023, hpr, hpg, hpb]
  push_cast
  unfold getstCore
  dsimp only
  rw [max_eq_left (by norm_num : (57556 : ℝ) ≤ 65471),
    max_eq_right (by norm_num : (48273 : ℝ) ≤ 65471)]
  rw [if_pos (⟨by norm_num, by decide⟩ : (0 : ℝ) < 65471 ∧ 0 < 1)]
  rw [if_pos (by norm_num : (48273 : ℝ) / 65471 - 65471 / 65471 < 0)]
  rw [if_pos (by norm_num : (0 : ℝ) < 48273 / 65471)]
  dsimp only
  set q : ℝ := ((57556 : ℝ) / 65471 + 1.0 + ((48273 : ℝ) / 65471 - (65471 : ℝ) / 65471) -
      (GAMMA_K0GR + GAMMA_K0BR)) / (GAMMA_K1GR + GAMMA_K1BR) with hqdef
  have hq1 : Real.log 3760 < q := by
    refine lt_of_lt_of_le log3760_bounds.2 ?_
    rw [hqdef]
    unfold GAMMA_K0GR GAMMA_K0BR GAMMA_K1GR GAMMA_K1BR
    norm_num
  have hq2 : q < Real.log 3840 := by
    refine lt_of_le_of_lt ?_ log3840_bounds.1
    rw [hqdef]
    unfold GAMMA_K0GR GAMMA_K0BR GAMMA_K1GR GAMMA_K1BR
    norm_num
  have he1 : (3760 : ℝ) < Real.exp q := by
    have h := Real.exp_lt_exp.mpr hq1
    rwa [Real.exp_log (by norm_num : (0 : ℝ) < 3760)] at h
  have he2 : Real.exp q < 3840 := by
    have h := Real.exp_lt_exp.mpr hq2
    rwa [Real.exp_log (by norm_num : (0 : ℝ) < 3840)] at h
  refine roundtrip_floor_bound _ 4500 ?_ ?_
  · unfold MINTEMP
    push_cast
    linarith
  · unfold MINTEMP
    push_cast
    linarith

theorem rt6500 : |roundtrip 6500 1024 - 6500| ≤ 50 := by
  have hlog := log700_bounds
  have harg : (((6500 : ℤ) : ℝ) - ((TEMP_NORM - MINTEMP : ℤ) : ℝ)) = 700 := by
    norm_num [TEMP_NORM, MINTEMP]
  have hred : (temperatureToGamma 6500).red =
      min (GAMMA_K0RB + GAMMA_K1RB * Real.log 700) 1 := by
    unfold temperatureToGamma
    rw [if_neg (by decide)]
    dsimp only
    rw [harg]
    refine trimdouble_eq_min ?_
    unfold GAMMA_K0RB GAMMA_K1RB
    linarith [hlog.1, hlog.2]
  have hgreen : (temperatureToGamma 6500).green =
      min (GAMMA_K0GB + GAMMA_K1GB * Real.log 700) 1 := by
    unfold temperatureToGamma
    rw [if_neg (by decide)]
    dsimp only
    rw [harg]
    refine trimdouble_eq_min ?_
    unfold GAMMA_K0GB GAMMA_K1GB
    linarith [hlog.1, hlog.2]
  have hblue : (temperatureToGamma 6500).blue = 1 := by
    unfold temperatureToGamma
    rw [if_neg (by decide)]
  have hpr : setstRampValue 1 (temperatureToGamma 6500).red 1024 1023 = 65471 := by
    rw [hred]
    have h1 : min (GAMMA_K0RB + GAMMA_K1RB * Real.log 700) 1 ≤ 1 := min_le_right _ _
    have h2 : (0.9999999 : ℝ) ≤ min (GAMMA_K0RB + GAMMA_K1RB * Real.log 700) 1 := by
      refine le_min ?_ (by norm_num)
      unfold GAMMA_K0RB GAMMA_K1RB
      linarith [hlog.1, hlog.2]
    unfold setstRampValue GAMMA_MULT
    rw [Int.floor_eq_iff]
    push_cast
    constructor
    · nlinarith [h1, h2]
    · nlinarith [h1, h2]
  have hpg : setstRampValue 1 (temperatureToGamma 6500).green 1024 1023 = 65471 := by
    rw [hgreen]
    have h1 : min (GAMMA_K0GB + GAMMA_K1GB * Real.log 700) 1 ≤ 1 := min_le_right _ _
    have h2 : (0.9999999 : ℝ) ≤ min (GAMMA_K0GB + GAMMA_K1GB * Real.log 700) 1 := by
      refine le_min ?_ (by norm_num)
      unfold GAMMA_K0GB GAMMA_K1GB
      linarith [hlog.1, hlog.2]
    unfold setstRampValue GAMMA_MULT
    rw [Int.floor_eq_iff]
    push_cast
    constructor
    · nlinarith [h1, h2]
    · nlinarith [h1, h2]
  have hpb : setstRampValue 1 (temperatureToGamma 6500).blue 1024 1023 = 65471 := by
    rw [hblue]
    exact peak_unit_1024
  rw [roundtrip_core, trim_one]
  have e1023 : (1024 : ℕ) - 1 = 1023 := rfl
  rw [e1023, hpr, hpg, hpb]
  push_cast
  unfold getstCore
  dsimp only
  rw [max_eq_left (by norm_num : (65471 : ℝ) ≤ 65471),
    max_eq_right (by norm_num : (65471 : ℝ) ≤ 65471)]
  rw [if_pos (⟨by norm_num, by decide⟩ : (0 : ℝ) < 65471 ∧ 0 < 1)]
  rw [if_neg (by norm_num : ¬ ((65471 : ℝ) / 65471 - 65471 / 65471 < 0))]
  dsimp only
  set q : ℝ := ((65471 : ℝ) / 65471 + 1.0 - ((65471 : ℝ) / 65471 - (65471 : ℝ) / 65471) -
      (GAMMA_K0GB + GAMMA_K0RB)) / (GAMMA_K1GB + GAMMA_K1RB) with hqdef
  have hq1 : Real.log 660 < q := by
    refine lt_of_lt_of_le log660_bounds.2 ?_
    rw [hqdef]
    unfold GAMMA_K0GB GAMMA_K0RB GAMMA_K1GB GAMMA_K1RB
    norm_num
  have hq2 : q < Real.log 740 := by
    refine lt_of_le_of_lt ?_ log740_bounds.1
    rw [hqdef]
    unfold GAMMA_K0GB GAMMA_K0RB GAMMA_K1GB GAMMA_K1RB
    norm_num
  have he1 : (660 : ℝ) < Real.exp q := by
    have h := Real.exp_lt_exp.mpr hq1
    rwa [Real.exp_log (by norm_num : (0 : ℝ) < 660)] at h
  have he2 : Real.exp q < 740 := by
    have h := Real.exp_lt_exp.mpr hq2
    rwa [Real.exp_log (by norm_num : (0 : ℝ) < 740)] at h
  refine roundtrip_floor_bound _ 6500 ?_ ?_
  · unfold TEMP_NORM MINTEMP
    push_cast
    linarith
  · unfold TEMP_NORM MINTEMP
    push_cast
    linarith

theorem rt9000 : |roundtrip 9000 1024 - 9000| ≤ 50 := by
  have hlog := log3200_bounds
  have harg : (((9000 : ℤ) : ℝ) - ((TEMP_NORM - MINTEMP : ℤ) : ℝ)) = 3200 := by
    norm_num [TEMP_NORM, MINTEMP]
  have hred : (temperatureToGamma 9000).red =
      GAMMA_K0RB + GAMMA_K1RB * Real.log 3200 := by
    unfold temperatureToGamma
    rw [if_neg (by decide)]
    dsimp only
    rw [harg]
    refine trimdouble_eq_self ?_ ?_
    · unfold GAMMA_K0RB GAMMA_K1RB
      linarith [hlog.1, hlog.2]
    · unfold GAMMA_K0RB GAMMA_K1RB
      linarith [hlog.1, hlog.2]
  have hgreen : (temperatureToGamma 9000).green =
      GAMMA_K0GB + GAMMA_K1GB * Real.log 3200 := by
    unfold temperatureToGamma
    rw [if_neg (by decide)]
    dsimp only
    rw [harg]
    refine trimdouble_eq_self ?_ ?_
    · unfold GAMMA_K0GB GAMMA_K1GB
      linarith [hlog.1, hlog.2]
    · unfold GAMMA_K0GB GAMMA_K1GB
      linarith [hlog.1, hlog.2]
  have hblue : (temperatureToGamma 9000).blue = 1 := by
    unfold temperatureToGamma
    rw [if_neg (by decide)]
  have hpr : setstRampValue 1 (temperatureToGamma 9000).red 1024 1023 = 54020 := by
    rw [hred]
    unfold setstRampValue GAMMA_MULT GAMMA_K0RB GAMMA_K1RB
    rw [Int.floor_eq_iff]
    push_cast
    constructor
    · nlinarith [hlog.1, hlog.2]
    · nlinarith [hlog.1, hlog.2]
  have hpg : setstRampValue 1 (temperatureToGamma 9000).green 1024 1023 = 57995 := by
    rw [hgreen]
    unfold setstRampValue GAMMA_MULT GAMMA_K0GB GAMMA_K1GB
    rw [Int.floor_eq_iff]
    push_cast
    constructor
    · nlinarith [hlog.1, hlog.2]
    · nlinarith [hlog.1, hlog.2]
  have hpb : setstRampValue 1 (temperatureToGamma 9000).blue 1024 1023 = 65471 := by
    rw [hblue]
    exact peak_unit_1024
  rw [roundtrip_core, trim_one]
  have e1023 : (1024 : ℕ) - 1 = 1023 := rfl
  rw [e1023, hpr, hpg, hpb]
  push_cast
  unfold getstCore
  dsimp only
  rw [max_eq_right (by norm_num : (54020 : ℝ) ≤ 57995),
    max_eq_left (by norm_num : (57995 : ℝ) ≤ 65471)]
  rw [if_pos (⟨by norm_num, by decide⟩ : (0 : ℝ) < 65471 ∧ 0 < 1)]
  rw [if_neg (by norm_num : ¬ ((65471 : ℝ) / 65471 - 54020 / 65471 < 0))]
  dsimp only
  set q : ℝ := ((57995 : ℝ) / 65471 + 1.0 - ((65471 : ℝ) / 65471 - (54020 : ℝ) / 65471) -
      (GAMMA_K0GB + GAMMA_K0RB)) / (GAMMA_K1GB + GAMMA_K1RB) with hqdef
  have hq1 : Real.log 3160 < q := by
    refine lt_of_lt_of_le log3160_bounds.2 ?_
    rw [hqdef]
    unfold GAMMA_K0GB GAMMA_K0RB GAMMA_K1GB GAMMA_K1RB
    norm_num
  have hq2 : q < Real.log 3240 := by
    refine lt_of_le_of_lt ?_ log3240_bounds.1
    rw [hqdef]
    unfold GAMMA_K0GB GAMMA_K0RB GAMMA_K1GB GAMMA_K1RB
    norm_num
  have he1 : (3160 : ℝ) < Real.exp q := by
    have h := Real.exp_lt_exp.mpr hq1
    rwa [Real.exp_log (by norm_num : (0 : ℝ) < 3160)] at h
  have he2 : Real.exp q < 3240 := by
    have h := Real.exp_lt_exp.mpr hq2
    rwa [Real.exp_log (by norm_num : (0 : ℝ) < 3240)] at h
  refine roundtrip_floor_bound _ 9000 ?_ ?_
  · unfold TEMP_NORM MINTEMP
    push_cast
    linarith
  · unfold TEMP_NORM MINTEMP
    push_cast
    linarith

theorem rt15000 : |roundtrip 15000 1024 - 15000| ≤ 50 := by
  have hlog := log9200_bounds
  have harg : (((15000 : ℤ) : ℝ) - ((TEMP_NORM - MINTEMP : ℤ) : ℝ)) = 9200 := by
    norm_num [TEMP_NORM, MINTEMP]
  have hred : (temperatureToGamma 15000).red =
      GAMMA_K0RB + GAMMA_K1RB * Real.log 9200 := by
    unfold temperatureToGamma
    rw [if_neg (by decide)]
    dsimp only
    rw [harg]
    refine trimdouble_eq_self ?_ ?_
    · unfold GAMMA_K0RB GAMMA_K1RB
      linarith [hlog.1, hlog.2]
    · unfold GAMMA_K0RB GAMMA_K1RB
      linarith [hlog.1, hlog.2]
  have hgreen : (temperatureToGamma 15000).green =
      GAMMA_K0GB + GAMMA_K1GB * Real.log 9200 := by
    unfold temperatureToGamma
    rw [if_neg (by decide)]
    dsimp only
    rw [harg]
    refine trimdouble_eq_self ?_ ?_
    · unfold GAMMA_K0GB GAMMA_K1GB
      linarith [hlog.1, hlog.2]
    · unfold GAMMA_K0GB GAMMA_K1GB
      linarith [hlog.1, hlog.2]
  have hblue : (temperatureToGamma 15000).blue = 1 := by
    unfold temperatureToGamma
    rw [if_neg (by decide)]
  have hpr : setstRampValue 1 (temperatureToGamma 15000).red 1024 1023 = 46063 := by
    rw [hred]
    unfold setstRampValue GAMMA_MULT GAMMA_K0RB GAMMA_K1RB
    rw [Int.floor_eq_iff]
    push_cast
    constructor
    · nlinarith [hlog.1, hlog.2]
    · nlinarith [hlog.1, hlog.2]
  have hpg : setstRampValue 1 (temperatureToGamma 15000).green 1024 1023 = 52800 := by
    rw [hgreen]
    unfold setstRampValue GAMMA_MULT GAMMA_K0GB GAMMA_K1GB
    rw [Int.floor_eq_iff]
    push_cast
    constructor
    · nlinarith [hlog.1, hlog.2]
    · nlinarith [hlog.1, hlog.2]
  have hpb : setstRampValue 1 (temperatureToGamma 15000).blue 1024 1023 = 65471 := by
    rw [hblue]
    exact peak_unit_1024
  rw [roundtrip_core, trim_one]
  have e1023 : (1024 : ℕ) - 1 = 1023 := rfl
  rw [e1023, hpr, hpg, hpb]
  push_cast
  unfold getstCore
  dsimp only
  rw [max_eq_right (by norm_num : (46063 : ℝ) ≤ 52800),
    max_eq_left (by norm_num : (52800 : ℝ) ≤ 65471)]
  rw [if_pos (⟨by norm_num, by decide⟩ : (0 : ℝ) < 65471 ∧ 0 < 1)]
  rw [if_neg (by norm_num : ¬ ((65471 : ℝ) / 65471 - 46063 / 65471 < 0))]
  dsimp only
  set q : ℝ := ((52800 : ℝ) / 65471 + 1.0 - ((65471 : ℝ) / 65471 - (46063 : ℝ) / 65471) -
      (GAMMA_K0GB + GAMMA_K0RB)) / (GAMMA_K1GB + GAMMA_K1RB) with hqdef
  have hq1 : Real.log 9160 < q := by
    refine lt_of_lt_of_le log9160_bounds.2 ?_
    rw [hqdef]
    unfold GAMMA_K0GB GAMMA_K0RB GAMMA_K1GB GAMMA_K1RB
    norm_num
  have hq2 : q < Real.log 9240 := by
    refine lt_of_le_of_lt ?_ log9240_bounds.1
    rw [hqdef]
    unfold GAMMA_K0GB GAMMA_K0RB GAMMA_K1GB GAMMA_K1RB
    norm_num
  have he1 : (9160 : ℝ) < Real.exp q := by
    have h := Real.exp_lt_exp.mpr hq1
    rwa [Real.exp_log (by norm_num : (0 : ℝ) < 9160)] at h
  have he2 : Real.exp q < 9240 := by
    have h := Real.exp_lt_exp.mpr hq2
    rwa [Real.exp_log (by norm_num : (0 : ℝ) < 9240)] at h
  refine roundtrip_floor_bound _ 15000 ?_ ?_
  · unfold TEMP_NORM MINTEMP
    push_cast
    linarith
  · unfold TEMP_NORM MINTEMP
    push_cast
    linarith

/-- C1: for the representative temperatures at brightness 1.0, encoding
through the forward curve model into a ramp of size 1024, decoding the ramp
and applying the inverse model recovers the original temperature within
50 Kelvin. -/
theorem c1_roundtrip_stability :
    |roundtrip 1000 1024 - 1000| ≤ 50 ∧
    |roundtrip 2700 1024 - 2700| ≤ 50 ∧
    |roundtrip 4500 1024 - 4500| ≤ 50 ∧
    |roundtrip 6500 1024 - 6500| ≤ 50 ∧
    |roundtrip 9000 1024 - 9000| ≤ 50 ∧
    |roundtrip 15000 1024 - 15000| ≤ 50 :=
  ⟨rt1000, rt2700, rt4500, rt6500, rt9000, rt15000⟩

end Xsct
